import Mathlib

/-!
Verification of the AetherPanel control plane and node agent.

The definitions below are a shallow embedding of the Go sources:

* `backend/internal/domain/entities/server.go` — the `Node`, `Server` and
  `Allocation` entities and the capacity helpers `Node.AvailableMemory` /
  `Node.AvailableDisk` (Go integer division is truncated division, embedded
  as `Int.tdiv`; Go `int64`/`int` are embedded as unbounded `Int`, since no
  claim concerns 64-bit overflow).
* `backend/internal/application/services/server_service.go` — the
  `ServerService` operations `Create`, `Start`, `Restart`, `Kill`, `Delete`.
  Repository and remote calls that can fail in Go are modelled by explicit
  fault flags passed to the operation; a repository write whose error the Go
  code discards with `_ =` and whose failure no claim concerns is modelled
  as an in-memory state update that succeeds.
* `agent/internal/server/manager.go` — the supervisor's port-binding
  construction in `CreateServer`, the `checkAllServers` health pass, the
  `collectAllMetrics` metrics pass, and the HTTP `authMiddleware`.
-/

namespace AetherPanel

/-- Server lifecycle status, from `entities.ServerStatus` in
`backend/internal/domain/entities/server.go`. -/
inductive ServerStatus where
  | installing
  | starting
  | running
  | stopping
  | stopped
  | restarting
  | error
  | suspendedStatus
  deriving DecidableEq, Repr

/-- The `entities.Node` record, restricted to the fields the server service
reads: capacity totals, allocated totals and overallocation percentages. -/
structure Node where
  memoryTotal : Int
  memoryAllocated : Int
  memoryOveralloc : Int
  diskTotal : Int
  diskAllocated : Int
  diskOveralloc : Int
  cpuAllocated : Int
  deriving DecidableEq, Repr

/-- Embedding of `Node.AvailableMemory`:
`maxMemory := n.MemoryTotal + (n.MemoryTotal * int64(n.MemoryOveralloc) / 100)`
(Go `/` on `int64` is truncated division, hence `Int.tdiv`), then
`maxMemory - n.MemoryAllocated`. -/
def Node.availableMemory (n : Node) : Int :=
  let maxMemory := n.memoryTotal + Int.tdiv (n.memoryTotal * n.memoryOveralloc) 100
  maxMemory - n.memoryAllocated

/-- Embedding of `Node.AvailableDisk`, symmetric to `Node.availableMemory`. -/
def Node.availableDisk (n : Node) : Int :=
  let maxDisk := n.diskTotal + Int.tdiv (n.diskTotal * n.diskOveralloc) 100
  maxDisk - n.diskAllocated

/-- The `entities.Server` record, restricted to the fields the server
service reads and writes.  Identifiers are embedded as `Nat`. -/
structure Server where
  id : Nat
  status : ServerStatus
  suspended : Bool
  nodeId : Nat
  allocationId : Nat
  memoryLimit : Int
  diskLimit : Int
  cpuLimit : Int
  lastStartedAt : Option Nat
  deriving DecidableEq, Repr

/-- Embedding of `Server.IsRunning`: `s.Status == ServerStatusRunning`.
Note that this is `running` only — `starting` does not count. -/
def Server.isRunning (s : Server) : Bool :=
  s.status == ServerStatus.running

/-- The `entities.Allocation` record restricted to the fields the server
service touches.  `serverId = none` means the allocation is unbound. -/
structure Allocation where
  id : Nat
  port : Int
  serverId : Option Nat
  isPrimary : Bool
  deriving DecidableEq, Repr

/-- The slice of persistent state one `ServerService` call touches: the
target node's row, that node's allocation rows, and the server rows. -/
structure PanelState where
  node : Node
  allocations : List Allocation
  servers : List Server
  deriving DecidableEq, Repr

namespace ServerService

/-- The fields of `CreateServerRequest` that drive the capacity check and
the reservation. -/
structure CreateReq where
  nodeId : Nat
  memoryLimit : Int
  diskLimit : Int
  cpuLimit : Int
  deriving DecidableEq, Repr

/-- Fault injection for the three fallible repository writes inside
`ServerService.Create` (in Go each returns an `error` that aborts the
call). -/
structure CreateFaults where
  serverCreateFails : Bool
  assignFails : Bool
  updateResourcesFails : Bool
  deriving DecidableEq, Repr

/-- Errors `ServerService.Create` can return once the node row has been
found (`ErrInsufficientResources`, `ErrNoAvailableAllocation`, or a wrapped
repository error). -/
inductive CreateErr where
  | insufficientResources
  | noAvailableAllocation
  | serverCreateFailed
  | assignFailed
  | updateResourcesFailed
  deriving DecidableEq, Repr

/-- Embedding of `AllocationRepository.AssignToServer`: bind the allocation
row with the given id to the server and mark it primary (the Go call passes
`true` for `isPrimary`). -/
def assignToServer (allocs : List Allocation) (allocId serverId : Nat) :
    List Allocation :=
  allocs.map fun a =>
    if a.id = allocId then { a with serverId := some serverId, isPrimary := true }
    else a

/-- Embedding of `ServerService.Create` after the node row has been fetched
(the state carries the node row, so `nodeRepo.GetByID` has succeeded).
Mirrors the Go control flow step by step: the memory capacity check, the
disk capacity check, the scan for an unbound allocation
(`GetAvailableByNodeID` then `allocations[0]`), persisting the server row,
assigning the allocation, and adding the requested amounts to the node's
allocated totals.  `newId` stands for the database-generated server id;
each fallible write aborts with the state it left behind. -/
def create (st : PanelState) (req : CreateReq) (newId : Nat)
    (f : CreateFaults) : Except CreateErr Server × PanelState :=
  let node := st.node
  if node.availableMemory < req.memoryLimit then
    (Except.error CreateErr.insufficientResources, st)
  else if node.availableDisk < req.diskLimit then
    (Except.error CreateErr.insufficientResources, st)
  else
    match st.allocations.filter (fun a => a.serverId.isNone) with
    | [] => (Except.error CreateErr.noAvailableAllocation, st)
    | allocation :: _ =>
      let server : Server :=
        { id := newId
          status := ServerStatus.installing
          suspended := false
          nodeId := req.nodeId
          allocationId := allocation.id
          memoryLimit := req.memoryLimit
          diskLimit := req.diskLimit
          cpuLimit := req.cpuLimit
          lastStartedAt := none }
      if f.serverCreateFails then (Except.error CreateErr.serverCreateFailed, st)
      else
        let st1 : PanelState := { st with servers := st.servers ++ [server] }
        if f.assignFails then (Except.error CreateErr.assignFailed, st1)
        else
          let st2 : PanelState :=
            { st1 with allocations := assignToServer st1.allocations allocation.id newId }
          if f.updateResourcesFails then
            (Except.error CreateErr.updateResourcesFailed, st2)
          else
            let st3 : PanelState :=
              { st2 with node :=
                { st2.node with
                  memoryAllocated := node.memoryAllocated + req.memoryLimit
                  diskAllocated := node.diskAllocated + req.diskLimit
                  cpuAllocated := node.cpuAllocated + req.cpuLimit } }
            (Except.ok server, st3)

/-- Fault injection for a power action: the first `UpdateStatus` repository
write, and the remote node-transport call. -/
structure PowerFaults where
  updateStatusFails : Bool
  remoteFails : Bool
  deriving DecidableEq, Repr

/-- Errors a power action can return once the server row has been found
(`ErrServerSuspended`, `ErrServerAlreadyRunning`, or wrapped repository /
transport errors). -/
inductive PowerErr where
  | suspendedServer
  | alreadyRunning
  | updateStatusFailed
  | remoteFailed
  deriving DecidableEq, Repr

/-- Result of a power action: the returned error (if any), the server row
it leaves behind, and whether the remote node command was issued. -/
structure PowerOutcome where
  result : Option PowerErr
  server : Server
  remoteIssued : Bool
  deriving DecidableEq, Repr

/-- Embedding of `ServerService.Start` after the server row has been
fetched.  Mirrors the Go flow: reject a suspended server, reject when
`IsRunning()`, set status `Starting`, issue the remote `StartServer`; on
transport failure set status `Error` (the Go code discards that write's
error) and surface the failure; on success record `LastStartedAt`. -/
def start (s : Server) (f : PowerFaults) (now : Nat) : PowerOutcome :=
  if s.suspended then ⟨some PowerErr.suspendedServer, s, false⟩
  else if s.isRunning then ⟨some PowerErr.alreadyRunning, s, false⟩
  else if f.updateStatusFails then ⟨some PowerErr.updateStatusFailed, s, false⟩
  else
    let s1 : Server := { s with status := ServerStatus.starting }
    if f.remoteFails then
      ⟨some PowerErr.remoteFailed, { s1 with status := ServerStatus.error }, true⟩
    else
      ⟨none, { s1 with lastStartedAt := some now }, true⟩

/-- Embedding of `ServerService.Restart` after the server row has been
fetched: reject a suspended server, set status `Restarting`, issue the
remote `RestartServer`; on transport failure the error is returned with no
further status write. -/
def restart (s : Server) (f : PowerFaults) : PowerOutcome :=
  if s.suspended then ⟨some PowerErr.suspendedServer, s, false⟩
  else if f.updateStatusFails then ⟨some PowerErr.updateStatusFailed, s, false⟩
  else
    let s1 : Server := { s with status := ServerStatus.restarting }
    if f.remoteFails then ⟨some PowerErr.remoteFailed, s1, true⟩
    else ⟨none, s1, true⟩

/-- Embedding of `ServerService.Kill` after the server row has been
fetched: no status precondition; issue the remote `KillServer`; on
transport failure return the error with no status write; on success set
status `Stopped` (that write's error is discarded in Go). -/
def kill (s : Server) (remoteFails : Bool) : PowerOutcome :=
  if remoteFails then ⟨some PowerErr.remoteFailed, s, true⟩
  else ⟨none, { s with status := ServerStatus.stopped }, true⟩

/-- Embedding of `AllocationRepository.Unassign`: clear the server binding
of the allocation row with the given id. -/
def unassign (allocs : List Allocation) (allocId : Nat) : List Allocation :=
  allocs.map fun a => if a.id = allocId then { a with serverId := none } else a

/-- Embedding of `ServerService.Delete` after the server row and the node
row have been fetched.  Mirrors the Go flow: if the server is running,
issue the remote `KillServer` and discard any error (`killFails` records
whether that call failed — the state changes are the same either way);
unassign the server's recorded allocation (error discarded); decrement the
node's allocated totals by the server's recorded limits (error discarded);
remove the server row.  The second component reports whether the remote
kill was issued. -/
def deleteServer (st : PanelState) (server : Server) (killFails : Bool) :
    PanelState × Bool :=
  let killIssued := server.isRunning
  ({ node := { st.node with
        memoryAllocated := st.node.memoryAllocated - server.memoryLimit
        diskAllocated := st.node.diskAllocated - server.diskLimit
        cpuAllocated := st.node.cpuAllocated - server.cpuLimit }
     allocations := unassign st.allocations server.allocationId
     servers := st.servers.filter (fun r => r.id != server.id) },
   killIssued)

end ServerService

/-- The code's memory capacity check agrees with the spec's exact formula:
`available < m` (with Go truncated division) holds exactly when
`m > memoryTotal * (1 + memoryOveralloc / 100) - memoryAllocated` as exact
rational arithmetic, cleared of the denominator. -/
theorem availableMemory_lt_iff (n : Node) (m : Int)
    (hT : 0 ≤ n.memoryTotal) (hp : 0 ≤ n.memoryOveralloc) :
    n.availableMemory < m ↔
      100 * (m + n.memoryAllocated) >
        100 * n.memoryTotal + n.memoryTotal * n.memoryOveralloc := by
  simp only [Node.availableMemory]
  rw [Int.tdiv_eq_ediv (mul_nonneg hT hp) (by norm_num)]
  generalize n.memoryTotal * n.memoryOveralloc = q
  omega

/-- Disk analogue of `availableMemory_lt_iff`. -/
theorem availableDisk_lt_iff (n : Node) (d : Int)
    (hT : 0 ≤ n.diskTotal) (hp : 0 ≤ n.diskOveralloc) :
    n.availableDisk < d ↔
      100 * (d + n.diskAllocated) >
        100 * n.diskTotal + n.diskTotal * n.diskOveralloc := by
  simp only [Node.availableDisk]
  rw [Int.tdiv_eq_ediv (mul_nonneg hT hp) (by norm_num)]
  generalize n.diskTotal * n.diskOveralloc = q
  omega

/-- Scenario A node after the first 2048MB server: total 4096MB, no
overallocation, 2048MB allocated. -/
def scenarioANode : Node :=
  { memoryTotal := 4096, memoryAllocated := 2048, memoryOveralloc := 0
    diskTotal := 102400, diskAllocated := 10240, diskOveralloc := 0
    cpuAllocated := 100 }

/-- Scenario A state: the node above, one remaining unbound allocation, and
the first server already present. -/
def scenarioAState : PanelState :=
  { node := scenarioANode
    allocations := [{ id := 11, port := 25566, serverId := none, isPrimary := false }]
    servers := [{ id := 1, status := ServerStatus.installing, suspended := false
                  nodeId := 1, allocationId := 10, memoryLimit := 2048
                  diskLimit := 10240, cpuLimit := 100, lastStartedAt := none }] }

/-- Scenario A second request: 2049MB of memory. -/
def scenarioAReq : ServerService.CreateReq :=
  { nodeId := 1, memoryLimit := 2049, diskLimit := 1024, cpuLimit := 100 }

/-- No injected repository faults. -/
def noFaults : ServerService.CreateFaults :=
  { serverCreateFails := false, assignFails := false, updateResourcesFails := false }

/-- C1: `Create` fails with `ErrInsufficientResources` exactly when the
requested memory exceeds `memoryTotal * (1 + memoryOveralloc / 100) -
memoryAllocated` or the requested disk exceeds the symmetric disk bound
(both stated in exact arithmetic with the denominator 100 cleared), and on
such a failure the panel state — in particular the node's allocated
totals — is unchanged. -/
theorem create_capacity_check (st : PanelState) (req : ServerService.CreateReq)
    (newId : Nat) (f : ServerService.CreateFaults)
    (hmT : 0 ≤ st.node.memoryTotal) (hmp : 0 ≤ st.node.memoryOveralloc)
    (hdT : 0 ≤ st.node.diskTotal) (hdp : 0 ≤ st.node.diskOveralloc) :
    ((ServerService.create st req newId f).1 =
        Except.error ServerService.CreateErr.insufficientResources ↔
      (100 * (req.memoryLimit + st.node.memoryAllocated) >
          100 * st.node.memoryTotal + st.node.memoryTotal * st.node.memoryOveralloc ∨
       100 * (req.diskLimit + st.node.diskAllocated) >
          100 * st.node.diskTotal + st.node.diskTotal * st.node.diskOveralloc)) ∧
    ((ServerService.create st req newId f).1 =
        Except.error ServerService.CreateErr.insufficientResources →
      (ServerService.create st req newId f).2 = st) := by
  have hm := availableMemory_lt_iff st.node req.memoryLimit hmT hmp
  have hd := availableDisk_lt_iff st.node req.diskLimit hdT hdp
  by_cases h1 : st.node.availableMemory < req.memoryLimit
  · simp [ServerService.create, h1, hm.mp h1]
  · by_cases h2 : st.node.availableDisk < req.diskLimit
    · simp [ServerService.create, h1, h2, hd.mp h2]
    · have hnm : ¬ 100 * (req.memoryLimit + st.node.memoryAllocated) >
          100 * st.node.memoryTotal + st.node.memoryTotal * st.node.memoryOveralloc :=
        fun hc => h1 (hm.mpr hc)
      have hnd : ¬ 100 * (req.diskLimit + st.node.diskAllocated) >
          100 * st.node.diskTotal + st.node.diskTotal * st.node.diskOveralloc :=
        fun hc => h2 (hd.mpr hc)
      cases hl : st.allocations.filter (fun a => a.serverId.isNone) with
      | nil => simp [ServerService.create, h1, h2, hl, hnm, hnd]
      | cons a rest =>
        cases hf1 : f.serverCreateFails with
        | true => simp [ServerService.create, h1, h2, hl, hf1, hnm, hnd]
        | false =>
          cases hf2 : f.assignFails with
          | true => simp [ServerService.create, h1, h2, hl, hf1, hf2, hnm, hnd]
          | false =>
            cases hf3 : f.updateResourcesFails with
            | true => simp [ServerService.create, h1, h2, hl, hf1, hf2, hf3, hnm, hnd]
            | false => simp [ServerService.create, h1, h2, hl, hf1, hf2, hf3, hnm, hnd]

/-- Witness for C1, Scenario A: on a 4096MB node with no overallocation
already holding 2048MB, a request for 2049MB fails with
`ErrInsufficientResources` and `memoryAllocated` stays 2048. -/
theorem create_capacity_check_witness :
    (ServerService.create scenarioAState scenarioAReq 2 noFaults).1 =
      Except.error ServerService.CreateErr.insufficientResources ∧
    (ServerService.create scenarioAState scenarioAReq 2 noFaults).2.node.memoryAllocated
      = 2048 := by
  have h := create_capacity_check scenarioAState scenarioAReq 2 noFaults
    (by decide) (by decide) (by decide) (by decide)
  have hfail := h.1.mpr (Or.inl (by decide))
  refine ⟨hfail, ?_⟩
  rw [h.2 hfail]
  decide

/-- Input exhibiting the missing rollback in `Create`: ample capacity, one
unbound allocation, and a node-totals update that fails. -/
def c2State : PanelState :=
  { node := { memoryTotal := 8192, memoryAllocated := 0, memoryOveralloc := 0
              diskTotal := 102400, diskAllocated := 0, diskOveralloc := 0
              cpuAllocated := 0 }
    allocations := [{ id := 5, port := 25565, serverId := none, isPrimary := false }]
    servers := [] }

/-- Request used with `c2State`. -/
def c2Req : ServerService.CreateReq :=
  { nodeId := 1, memoryLimit := 1024, diskLimit := 2048, cpuLimit := 100 }

/-- Fault injection: the final `nodeRepo.UpdateResources` write fails. -/
def c2Faults : ServerService.CreateFaults :=
  { serverCreateFails := false, assignFails := false, updateResourcesFails := true }

/-- C2: when the node-totals update fails after the allocation was assigned,
`Create` returns the error but leaves the allocation bound to the new server
and the server row persisted — no rollback happens, contradicting the
spec's required atomicity (the node totals alone are unchanged). -/
theorem create_update_failure_leaves_reservation :
    (ServerService.create c2State c2Req 9 c2Faults).1 =
      Except.error ServerService.CreateErr.updateResourcesFailed ∧
    (ServerService.create c2State c2Req 9 c2Faults).2.allocations.map
      (fun a => a.serverId) = [some 9] ∧
    (ServerService.create c2State c2Req 9 c2Faults).2.servers.map
      (fun s => s.id) = [9] ∧
    (ServerService.create c2State c2Req 9 c2Faults).2.node = c2State.node :=
  ⟨rfl, rfl, rfl, rfl⟩

/-- No injected power-action faults. -/
def noPowerFaults : ServerService.PowerFaults :=
  { updateStatusFails := false, remoteFails := false }

/-- Power-action faults where only the remote transport call fails. -/
def remoteFailFaults : ServerService.PowerFaults :=
  { updateStatusFails := false, remoteFails := true }

/-- A running, non-suspended server. -/
def runningServer : Server :=
  { id := 2, status := ServerStatus.running, suspended := false, nodeId := 1
    allocationId := 5, memoryLimit := 1024, diskLimit := 10240, cpuLimit := 100
    lastStartedAt := some 50 }

/-- A running server that has been suspended. -/
def suspendedRunningServer : Server :=
  { runningServer with id := 3, suspended := true }

/-- A non-suspended server currently in status Starting. -/
def startingServer : Server :=
  { runningServer with id := 4, status := ServerStatus.starting }

/-- A stopped, non-suspended server. -/
def stoppedServer : Server :=
  { runningServer with id := 6, status := ServerStatus.stopped }

/-- C3 (amended: the server must also not be suspended, since the suspension
check precedes the running check): Start on a non-suspended Running server
returns the Conflict error `ErrServerAlreadyRunning`, issues no remote call
and leaves the server row — status and `lastStartedAt` included —
unchanged. -/
theorem start_running_conflict (s : Server) (f : ServerService.PowerFaults)
    (now : Nat) (hrun : s.status = ServerStatus.running)
    (hsusp : s.suspended = false) :
    (ServerService.start s f now).result =
      some ServerService.PowerErr.alreadyRunning ∧
    (ServerService.start s f now).remoteIssued = false ∧
    (ServerService.start s f now).server = s := by
  simp [ServerService.start, Server.isRunning, hrun, hsusp]

/-- Witness for C3's amended theorem at a concrete running server. -/
theorem start_running_conflict_witness :
    (ServerService.start runningServer noPowerFaults 0).result =
      some ServerService.PowerErr.alreadyRunning ∧
    (ServerService.start runningServer noPowerFaults 0).remoteIssued = false ∧
    (ServerService.start runningServer noPowerFaults 0).server = runningServer :=
  start_running_conflict runningServer noPowerFaults 0 rfl rfl

/-- C3 counterexample: a suspended server whose status is Running gets
`ErrServerSuspended` from Start, not the Conflict error the claim
states — the suspension check runs first. -/
theorem start_running_suspended_not_conflict :
    suspendedRunningServer.status = ServerStatus.running ∧
    (ServerService.start suspendedRunningServer noPowerFaults 0).result =
      some ServerService.PowerErr.suspendedServer ∧
    (ServerService.start suspendedRunningServer noPowerFaults 0).result ≠
      some ServerService.PowerErr.alreadyRunning := by
  decide

/-- C4 (amended: `IsRunning` covers only Running, so Starting does not block
Start): a non-suspended server in status Starting is not rejected — the
remote `StartServer` command is issued, and absent faults the call
succeeds. -/
theorem start_starting_not_blocked (s : Server) (f : ServerService.PowerFaults)
    (now : Nat) (hst : s.status = ServerStatus.starting)
    (hsusp : s.suspended = false) (hu : f.updateStatusFails = false) :
    (ServerService.start s f now).remoteIssued = true ∧
    (f.remoteFails = false → (ServerService.start s f now).result = none) := by
  constructor
  · simp only [ServerService.start, Server.isRunning, hst, hsusp, hu]
    by_cases hr : f.remoteFails = true <;> simp [hr]
  · intro hr
    simp [ServerService.start, Server.isRunning, hst, hsusp, hu, hr]

/-- Witness for C4's amended theorem at a concrete Starting server. -/
theorem start_starting_not_blocked_witness :
    (ServerService.start startingServer noPowerFaults 7).remoteIssued = true ∧
    (noPowerFaults.remoteFails = false →
      (ServerService.start startingServer noPowerFaults 7).result = none) :=
  start_starting_not_blocked startingServer noPowerFaults 7 rfl rfl rfl

/-- C4 counterexample: Start on a non-suspended server in status Starting
succeeds and issues the remote command, contrary to the claimed
precondition that Starting blocks Start. -/
theorem start_starting_proceeds :
    startingServer.status = ServerStatus.starting ∧
    (ServerService.start startingServer noPowerFaults 7).result = none ∧
    (ServerService.start startingServer noPowerFaults 7).remoteIssued = true := by
  decide

/-- C5 (amended: only Start sets the status to Error on transport failure;
Restart surfaces the error but leaves the status at Restarting): both
operations return the transport error to the caller, Start's server ends in
status Error, and Restart's server ends in status Restarting. -/
theorem remote_failure_status (s t : Server) (f g : ServerService.PowerFaults)
    (now : Nat) (hs1 : s.suspended = false) (hs2 : s.isRunning = false)
    (hs3 : f.updateStatusFails = false) (hs4 : f.remoteFails = true)
    (ht1 : t.suspended = false) (ht2 : g.updateStatusFails = false)
    (ht3 : g.remoteFails = true) :
    (ServerService.start s f now).result =
      some ServerService.PowerErr.remoteFailed ∧
    (ServerService.start s f now).server.status = ServerStatus.error ∧
    (ServerService.restart t g).result =
      some ServerService.PowerErr.remoteFailed ∧
    (ServerService.restart t g).server.status = ServerStatus.restarting := by
  simp [ServerService.start, ServerService.restart, hs1, hs2, hs3, hs4,
    ht1, ht2, ht3]

/-- Witness for C5's amended theorem at concrete stopped servers with a
failing transport. -/
theorem remote_failure_status_witness :
    (ServerService.start stoppedServer remoteFailFaults 9).result =
      some ServerService.PowerErr.remoteFailed ∧
    (ServerService.start stoppedServer remoteFailFaults 9).server.status =
      ServerStatus.error ∧
    (ServerService.restart stoppedServer remoteFailFaults).result =
      some ServerService.PowerErr.remoteFailed ∧
    (ServerService.restart stoppedServer remoteFailFaults).server.status =
      ServerStatus.restarting :=
  remote_failure_status stoppedServer stoppedServer remoteFailFaults
    remoteFailFaults 9 rfl rfl rfl rfl rfl rfl rfl

/-- C5 counterexample: Restart with a failing transport surfaces the error
but leaves the server in status Restarting, not Error as the claim
states. -/
theorem restart_remote_failure_not_error :
    (ServerService.restart stoppedServer remoteFailFaults).result =
      some ServerService.PowerErr.remoteFailed ∧
    (ServerService.restart stoppedServer remoteFailFaults).server.status =
      ServerStatus.restarting ∧
    (ServerService.restart stoppedServer remoteFailFaults).server.status ≠
      ServerStatus.error := by
  decide

/-- C7 (amended: only when the remote `KillServer` call succeeds does the
server end in Stopped; on transport failure the status write is skipped and
the server row is unchanged): Kill has no precondition on the current
status, a successful remote kill always ends in Stopped regardless of the
prior status, and a failed remote kill surfaces the error and changes
nothing. -/
theorem kill_behavior (s : Server) :
    (ServerService.kill s false).result = none ∧
    (ServerService.kill s false).server.status = ServerStatus.stopped ∧
    (ServerService.kill s true).result =
      some ServerService.PowerErr.remoteFailed ∧
    (ServerService.kill s true).server = s := by
  simp [ServerService.kill]

/-- C7 counterexample: when the remote KillServer call fails, a Running
server stays Running — Kill does not always end in Stopped. -/
theorem kill_remote_failure_not_stopped :
    (ServerService.kill runningServer true).server.status =
      ServerStatus.running ∧
    (ServerService.kill runningServer true).server.status ≠
      ServerStatus.stopped := by
  decide

/-- `unassign` keeps the allocation rows' identities: it rewrites at most
the binding of the row with the given id. -/
theorem unassign_map_id (allocs : List Allocation) (i : Nat) :
    (ServerService.unassign allocs i).map (fun a => a.id) =
      allocs.map (fun a => a.id) := by
  induction allocs with
  | nil => rfl
  | cons a rest ih =>
    simp only [ServerService.unassign, List.map_cons] at ih ⊢
    by_cases h : a.id = i <;> simp [h, ih]

/-- Rows other than the targeted one pass through `unassign` unchanged. -/
theorem unassign_other_mem (allocs : List Allocation) (i : Nat)
    (a : Allocation) (ha : a ∈ allocs) (hne : a.id ≠ i) :
    a ∈ ServerService.unassign allocs i := by
  refine List.mem_map.mpr ⟨a, ha, ?_⟩
  simp [hne]

/-- Every row of the `unassign` result carrying the targeted id is
unbound. -/
theorem unassign_target_unbound (allocs : List Allocation) (i : Nat)
    (a : Allocation) (ha : a ∈ ServerService.unassign allocs i)
    (hid : a.id = i) : a.serverId = none := by
  rcases List.mem_map.mp ha with ⟨b, _, hb⟩
  by_cases h : b.id = i
  · rw [← hb]
    simp [h]
  · rw [← hb] at hid
    simp [h] at hid

/-- C6: Delete unassigns exactly the server's recorded allocation (the row
set keeps the same ids, rows with other ids are untouched, and every row
with the recorded id ends unbound), decrements the node's allocated totals
by exactly the server's recorded memory, disk and CPU limits, removes
exactly the server's row, and does all of this identically whether or not
the remote kill call fails. -/
theorem delete_cleanup (st : PanelState) (server : Server) (kf : Bool) :
    (ServerService.deleteServer st server kf).1.node.memoryAllocated =
      st.node.memoryAllocated - server.memoryLimit ∧
    (ServerService.deleteServer st server kf).1.node.diskAllocated =
      st.node.diskAllocated - server.diskLimit ∧
    (ServerService.deleteServer st server kf).1.node.cpuAllocated =
      st.node.cpuAllocated - server.cpuLimit ∧
    (ServerService.deleteServer st server kf).1.allocations.map (fun a => a.id) =
      st.allocations.map (fun a => a.id) ∧
    (∀ a ∈ st.allocations, a.id ≠ server.allocationId →
      a ∈ (ServerService.deleteServer st server kf).1.allocations) ∧
    (∀ a ∈ (ServerService.deleteServer st server kf).1.allocations,
      a.id = server.allocationId → a.serverId = none) ∧
    (∀ r, r ∈ (ServerService.deleteServer st server kf).1.servers ↔
      (r ∈ st.servers ∧ r.id ≠ server.id)) ∧
    ServerService.deleteServer st server true =
      ServerService.deleteServer st server false := by
  refine ⟨rfl, rfl, rfl, unassign_map_id st.allocations server.allocationId,
    ?_, ?_, ?_, rfl⟩
  · intro a ha hne
    exact unassign_other_mem st.allocations server.allocationId a ha hne
  · intro a ha hid
    exact unassign_target_unbound st.allocations server.allocationId a ha hid
  · intro r
    constructor
    · intro hr
      have h := List.mem_filter.mp hr
      refine ⟨h.1, ?_⟩
      simpa using h.2
    · intro h
      refine List.mem_filter.mpr ⟨h.1, ?_⟩
      simpa using h.2

/-- Allocation rows for the Delete witness state. -/
def dAlloc5 : Allocation := { id := 5, port := 25565, serverId := some 8, isPrimary := true }

/-- Second allocation row for the Delete witness state, bound to the other
server. -/
def dAlloc7 : Allocation := { id := 7, port := 25566, serverId := some 9, isPrimary := true }

/-- The server being deleted in the Delete witness. -/
def dServer8 : Server :=
  { id := 8, status := ServerStatus.running, suspended := false, nodeId := 1
    allocationId := 5, memoryLimit := 2048, diskLimit := 10240, cpuLimit := 100
    lastStartedAt := some 40 }

/-- The unrelated server that must survive the Delete witness. -/
def dServer9 : Server :=
  { dServer8 with id := 9, allocationId := 7 }

/-- Panel state for the Delete witness: one node hosting two servers with
one bound allocation each. -/
def dState : PanelState :=
  { node := { memoryTotal := 8192, memoryAllocated := 4096, memoryOveralloc := 0
              diskTotal := 102400, diskAllocated := 20480, diskOveralloc := 0
              cpuAllocated := 200 }
    allocations := [dAlloc5, dAlloc7]
    servers := [dServer8, dServer9] }

/-- Witness for C6 at a concrete two-server node, with the remote kill
failing: the node's memory drops by the deleted server's limit, the other
server's allocation row is untouched, and the deleted server's row is
gone. -/
theorem delete_cleanup_witness :
    (ServerService.deleteServer dState dServer8 true).1.node.memoryAllocated = 2048 ∧
    dAlloc7 ∈ (ServerService.deleteServer dState dServer8 true).1.allocations ∧
    ¬ dServer8 ∈ (ServerService.deleteServer dState dServer8 true).1.servers := by
  have h := delete_cleanup dState dServer8 true
  refine ⟨?_, ?_, ?_⟩
  · rw [h.1]
    decide
  · exact h.2.2.2.2.1 dAlloc7 (by decide) (by decide)
  · intro hc
    exact absurd rfl ((h.2.2.2.2.2.2.1 dServer8).mp hc).2

namespace Agent

/-- The agent-side `Allocation` record from
`agent/internal/server/manager.go`. -/
structure Allocation where
  ip : String
  port : Int
  isPrimary : Bool
  deriving DecidableEq, Repr

/-- The `docker.PortConfig` record filled in by `Manager.CreateServer`. -/
structure PortConfig where
  hostIP : String
  hostPort : String
  contPort : String
  protocol : String
  deriving DecidableEq, Repr

/-- The TCP binding `Manager.CreateServer` appends for an allocation: host
IP and port bound to the same container port. -/
def tcpBinding (a : Allocation) : PortConfig :=
  { hostIP := a.ip, hostPort := toString a.port, contPort := toString a.port
    protocol := "tcp" }

/-- The UDP binding `Manager.CreateServer` appends for an allocation,
identical to the TCP one except for the protocol. -/
def udpBinding (a : Allocation) : PortConfig :=
  { hostIP := a.ip, hostPort := toString a.port, contPort := toString a.port
    protocol := "udp" }

/-- Embedding of the port-preparation loop of `Manager.CreateServer`: for
each allocation, append one TCP and one UDP `docker.PortConfig`, both
mapping the host IP and port to the same container port. -/
def buildPorts (allocs : List Allocation) : List PortConfig :=
  allocs.foldl (fun ports alloc => ports ++ [tcpBinding alloc, udpBinding alloc]) []

/-- The `ServerStats` record the metrics loop writes into the registry. -/
structure AgentStats where
  cpuPercent : Int
  memoryUsage : Int
  memoryLimit : Int
  networkRx : Int
  networkTx : Int
  uptime : Int
  collectedAt : Int
  deriving DecidableEq, Repr

/-- The stats payload returned by `docker.GetContainerStats`.  The Go
fields are numeric measurements (`float64`/`uint64`) that the loop copies
verbatim without arithmetic, so they are embedded as opaque `Int`
values. -/
structure DockerStats where
  cpuPercent : Int
  memoryUsage : Int
  memoryLimit : Int
  networkRx : Int
  networkTx : Int
  deriving DecidableEq, Repr

/-- One registry entry of the supervisor (`ServerState` in Go). -/
structure ServerState where
  id : String
  uuid : String
  containerID : String
  status : String
  startedAt : Option Int
  stats : Option AgentStats
  deriving DecidableEq, Repr

/-- Embedding of `Manager.checkAllServers` over a registry snapshot: one
`GetContainerStatus` call per entry, modelled by the oracle `inspect`
keyed on the container id; a failed call (`none`) is skipped, a successful
one overwrites only the `status` field.  Each entry is processed
independently, as in the Go loop. -/
def checkAllServers (inspect : String → Option String)
    (servers : List ServerState) : List ServerState :=
  servers.map fun server =>
    match inspect server.containerID with
    | none => server
    | some status => { server with status := status }

/-- The `ServerStats` record the metrics loop body builds: the runtime's
measurements copied verbatim, `collectedAt := now`, and
`uptime := now - startedAt` when `startedAt` is set (0 otherwise, the Go
zero value). -/
def mkStats (st : DockerStats) (startedAt : Option Int) (now : Int) : AgentStats :=
  let base : AgentStats :=
    { cpuPercent := st.cpuPercent, memoryUsage := st.memoryUsage
      memoryLimit := st.memoryLimit, networkRx := st.networkRx
      networkTx := st.networkTx, uptime := 0, collectedAt := now }
  match startedAt with
  | some t0 => { base with uptime := now - t0 }
  | none => base

/-- Embedding of `Manager.collectAllMetrics` over a registry snapshot: one
`GetContainerStats` call per entry, modelled by the oracle `getStats`; a
failed call is skipped, a successful one overwrites only the `stats` field
with the freshly-built `mkStats` record. -/
def collectAllMetrics (getStats : String → Option DockerStats) (now : Int)
    (servers : List ServerState) : List ServerState :=
  servers.map fun server =>
    match getStats server.containerID with
    | none => server
    | some st => { server with stats := some (mkStats st server.startedAt now) }

/-- Embedding of `Server.authMiddleware`: the credential is the
`Authorization` header, or the `token` query parameter when the header is
empty; the request passes (`true`) unless the credential differs from both
`"Bearer " ++ secret` and the bare secret, in which case it is rejected
with 401 before any handler runs (`false`). -/
def authAdmitted (secret headerToken queryToken : String) : Bool :=
  let token := if headerToken == "" then queryToken else headerToken
  let expectedToken := "Bearer " ++ secret
  if token != expectedToken && token != secret then false else true

end Agent

/-- The port loop appends two bindings per allocation, so running it from
any accumulator appends the flattened binding list. -/
theorem buildPorts_foldl (allocs : List Agent.Allocation)
    (init : List Agent.PortConfig) :
    allocs.foldl (fun ports alloc =>
        ports ++ [Agent.tcpBinding alloc, Agent.udpBinding alloc]) init =
      init ++ allocs.flatMap
        (fun a => [Agent.tcpBinding a, Agent.udpBinding a]) := by
  induction allocs generalizing init with
  | nil => simp
  | cons a rest ih => simp [ih]

/-- C8: the container description built by the supervisor's `CreateServer`
holds exactly two port bindings per allocation — the flattened sequence of
one TCP and one UDP binding each, both mapping the allocation's host
IP:port to the same container port — hence 2n bindings for n allocations,
and in particular four bindings for two allocations on ports 25565 and
25566. -/
theorem createServer_port_bindings (allocs : List Agent.Allocation) :
    Agent.buildPorts allocs =
      allocs.flatMap (fun a => [Agent.tcpBinding a, Agent.udpBinding a]) ∧
    (Agent.buildPorts allocs).length = 2 * allocs.length ∧
    (Agent.buildPorts
      [{ ip := "0.0.0.0", port := 25565, isPrimary := true },
       { ip := "0.0.0.0", port := 25566, isPrimary := false }]).length = 4 := by
  refine ⟨buildPorts_foldl allocs [], ?_, rfl⟩
  rw [Agent.buildPorts, buildPorts_foldl allocs [], List.nil_append]
  induction allocs with
  | nil => rfl
  | cons a rest ih =>
    rw [List.flatMap_cons, List.length_append, ih]
    simp only [List.length_cons, List.length_nil]
    omega

/-- C9: in a health pass and a metrics pass over the same snapshot, each
entry's result is a function of that entry and the runtime's answer for
its container alone (so one server's failure cannot affect another's
update): a failed inspect call leaves the entry unchanged, a successful
one rewrites only `status`; a failed stats call leaves the entry
unchanged, a successful one rewrites only `stats`; both passes preserve
length, and neither ever changes `containerID`. -/
theorem health_metrics_passes (inspect : String → Option String)
    (getStats : String → Option Agent.DockerStats) (now : Int)
    (servers : List Agent.ServerState) (i : Nat) :
    (Agent.checkAllServers inspect servers).length = servers.length ∧
    (Agent.collectAllMetrics getStats now servers).length = servers.length ∧
    (∀ s, servers[i]? = some s → inspect s.containerID = none →
      (Agent.checkAllServers inspect servers)[i]? = some s) ∧
    (∀ s status, servers[i]? = some s → inspect s.containerID = some status →
      (Agent.checkAllServers inspect servers)[i]? =
        some { s with status := status }) ∧
    (∀ s, servers[i]? = some s →
      ∃ t, (Agent.checkAllServers inspect servers)[i]? = some t ∧
        t.containerID = s.containerID ∧ t.stats = s.stats ∧ t.id = s.id ∧
        t.uuid = s.uuid ∧ t.startedAt = s.startedAt) ∧
    (∀ s, servers[i]? = some s → getStats s.containerID = none →
      (Agent.collectAllMetrics getStats now servers)[i]? = some s) ∧
    (∀ s st, servers[i]? = some s → getStats s.containerID = some st →
      (Agent.collectAllMetrics getStats now servers)[i]? =
        some { s with stats := some (Agent.mkStats st s.startedAt now) }) ∧
    (∀ s, servers[i]? = some s →
      ∃ t, (Agent.collectAllMetrics getStats now servers)[i]? = some t ∧
        t.containerID = s.containerID ∧ t.status = s.status ∧ t.id = s.id ∧
        t.uuid = s.uuid ∧ t.startedAt = s.startedAt) := by
  refine ⟨by simp [Agent.checkAllServers], by simp [Agent.collectAllMetrics],
    ?_, ?_, ?_, ?_, ?_, ?_⟩
  · intro s hs hn
    simp [Agent.checkAllServers, List.getElem?_map, hs, hn]
  · intro s status hs hst
    simp [Agent.checkAllServers, List.getElem?_map, hs, hst]
  · intro s hs
    cases hn : inspect s.containerID with
    | none =>
      exact ⟨s, by simp [Agent.checkAllServers, List.getElem?_map, hs, hn],
        rfl, rfl, rfl, rfl, rfl⟩
    | some status =>
      exact ⟨{ s with status := status },
        by simp [Agent.checkAllServers, List.getElem?_map, hs, hn],
        rfl, rfl, rfl, rfl, rfl⟩
  · intro s hs hn
    simp [Agent.collectAllMetrics, List.getElem?_map, hs, hn]
  · intro s st hs hst
    simp [Agent.collectAllMetrics, List.getElem?_map, hs, hst]
  · intro s hs
    cases hn : getStats s.containerID with
    | none =>
      exact ⟨s, by simp [Agent.collectAllMetrics, List.getElem?_map, hs, hn],
        rfl, rfl, rfl, rfl, rfl⟩
    | some st =>
      exact ⟨{ s with stats := some (Agent.mkStats st s.startedAt now) },
        by simp [Agent.collectAllMetrics, List.getElem?_map, hs, hn],
        rfl, rfl, rfl, rfl, rfl⟩

/-- Registry entry X for Scenario E: its inspect call will fail. -/
def scanServerX : Agent.ServerState :=
  { id := "x", uuid := "ux", containerID := "cx", status := "running"
    startedAt := none, stats := none }

/-- Registry entry Y for Scenario E: its inspect call will succeed. -/
def scanServerY : Agent.ServerState :=
  { id := "y", uuid := "uy", containerID := "cy", status := "running"
    startedAt := none, stats := none }

/-- Scenario E inspect oracle: fails on container `cx`, reports `exited`
for container `cy`. -/
def scanOracle : String → Option String :=
  fun c => if c == "cy" then some "exited" else none

/-- Witness for C9, Scenario E: with the inspect call failing on server X,
server Y's status is still updated in the same pass and X is left
unchanged. -/
theorem health_metrics_passes_witness :
    (Agent.checkAllServers scanOracle [scanServerX, scanServerY])[1]? =
      some { scanServerY with status := "exited" } ∧
    (Agent.checkAllServers scanOracle [scanServerX, scanServerY])[0]? =
      some scanServerX := by
  have hy := health_metrics_passes scanOracle (fun _ => none) 0
    [scanServerX, scanServerY] 1
  have hx := health_metrics_passes scanOracle (fun _ => none) 0
    [scanServerX, scanServerY] 0
  exact ⟨hy.2.2.2.1 scanServerY "exited" rfl rfl,
    hx.2.2.1 scanServerX rfl rfl⟩

/-- C10: the node agent's API authentication admits a request exactly when
the credential — the `Authorization` header, or the `token` query
parameter when the header is empty — equals the configured secret verbatim
or `"Bearer "` followed by the secret; every other credential is rejected
before any handler runs. -/
theorem auth_admits_iff (secret headerToken queryToken : String) :
    Agent.authAdmitted secret headerToken queryToken = true ↔
      ((if headerToken = "" then queryToken else headerToken) = secret ∨
       (if headerToken = "" then queryToken else headerToken) =
         "Bearer " ++ secret) := by
  simp only [Agent.authAdmitted, Bool.and_eq_true, bne_iff_ne, ne_eq,
    beq_iff_eq]
  by_cases h : headerToken = "" <;>
    simp [h] <;> by_cases h1 : (if headerToken = "" then queryToken else headerToken) = secret <;> tauto

end AetherPanel
